import Mathlib

/-!
# sphidewin: hiding X11 windows of one class

A shallow embedding of `main.go`.  The X server is an oracle that answers each
request from the history of everything the program has done so far, so every
pattern of successes and failures of the individual requests is covered.  The
program's observable behaviour is the chronological list of its effects
(X requests and log lines); the hidden-window registry is the local slice
`unMappedWindows` of `main`.
-/

namespace Sphidewin

/-! ## Data model -/

/-- A byte of a Go string. -/
abbrev Byte := UInt8

/-- A Go `string`: an immutable sequence of bytes. -/
abbrev GoString := List Byte

/-- The type `xproto.Window` (a 32-bit resource id). -/
abbrev Window := Nat

/-- The type `xproto.Atom`. -/
abbrev Atom := Nat

/-- A Go `error` value coming back from the X connection. -/
abbrev XError := String

/-- The lines the program writes to its log or to standard output. -/
inductive LogLine
  /-- The line `[WARNING] Couldn't unmap %s %d`, with ` (Previously spawned)` when the flag is set. -/
  | couldNotUnmap (windowClasses : List GoString) (windowId : Window) (previouslySpawned : Bool)
  /-- The line `%s %d unmapped`, with ` (Previously spawned)` when the flag is set. -/
  | unmapped (windowClasses : List GoString) (windowId : Window) (previouslySpawned : Bool)
  /-- The line `[WARNING] Couldn't map <id>`. -/
  | couldNotMap (windowId : Window)
  /-- The line `Mapped <id>`. -/
  | mapped (windowId : Window)
  /-- The line `Both event and error are nil. Exiting...`. -/
  | bothNil
  /-- The line `Error: %s`. -/
  | error (xerr : XError)
  /-- The line written by `log.Fatal(err)`. -/
  | fatal (err : XError)
  /-- The line `MapRequest` on standard output. -/
  | mapRequest
  deriving DecidableEq, Repr

/-- Everything the program does that is visible from outside, in the order it does it. -/
inductive Effect
  /-- The request `xproto.ChangeWindowAttributes` on the root window. -/
  | changeWindowAttributes (window : Window)
  /-- The request `xproto.InternAtom(X, onlyIfExists, len(name), name)`. -/
  | internAtom (onlyIfExists : Bool) (name : GoString)
  /-- The request `xproto.GetProperty(X, false, window, property, ...)`. -/
  | getProperty (window : Window) (property : Atom)
  /-- The request `xproto.UnmapWindowChecked(X, window)`. -/
  | unmapWindow (window : Window)
  /-- The request `xproto.MapWindowChecked(X, window)`. -/
  | mapWindow (window : Window)
  /-- The call `X.Close()`. -/
  | close
  /-- A line of output. -/
  | log (line : LogLine)
  deriving DecidableEq, Repr

/-- The history of a run. -/
abbrev Trace := List Effect

/-- The fields of `xproto.GetPropertyReply` the program reads. -/
structure GetPropertyReply where
  valueLen : Nat
  value : List Byte
  deriving DecidableEq, Repr

/-- The X server as seen through the connection `X`: the answer to a request may
depend on the whole history before it. `none` from a checked request is `Check() == nil`. -/
structure XServer where
  internAtom : Trace → Bool → GoString → Except XError Atom
  getProperty : Trace → Window → Atom → Except XError GetPropertyReply
  unmapWindowChecked : Trace → Window → Option XError
  mapWindowChecked : Trace → Window → Option XError

/-- The dynamic type of the event returned by `X.WaitForEvent()`, as far as the
type switch of `main` distinguishes it. -/
inductive Event
  | mapRequest (window : Window)
  | mapNotify (window : Window)
  | other
  deriving DecidableEq, Repr

/-- One result `(ev, xerr)` of `X.WaitForEvent()`; `none` is Go's `nil`. -/
structure WaitResult where
  ev : Option Event
  xerr : Option XError
  deriving DecidableEq, Repr

/-- How far the process has got. -/
inductive Status
  /-- Still inside `main` (in the pre-scan, or blocked in `WaitForEvent`). -/
  | running
  /-- The function `main` returned; its deferred calls have run. -/
  | returned
  /-- A call of `log.Fatal` ended the process with status 1; no deferred call runs. -/
  | fatal
  /-- A run-time panic unwound `main`; its deferred calls have run. -/
  | panicked
  /-- The interrupt handler ended the process with `os.Exit(0)`. -/
  | interrupted
  deriving DecidableEq, Repr

/-- The state of the process: the variable `unMappedWindows` of `main` and the history. -/
structure State where
  status : Status
  unMappedWindows : List Window
  trace : Trace
  deriving DecidableEq, Repr

/-! ## Library functions used by the program -/

/-- The function `strings.Split(s, sep)` for a separator of one byte: the pieces of
`s` between the occurrences of `sep`; there is always at least one piece. -/
def stringsSplit (sep : Byte) : GoString → List GoString
  | [] => [[]]
  | c :: cs =>
    if c = sep then [] :: stringsSplit sep cs
    else
      match stringsSplit sep cs with
      | [] => [[c]]
      | piece :: pieces => (c :: piece) :: pieces

/-- The function `xgb.Get32(buf)`: a little-endian 32-bit value; `none` is the
index-out-of-range panic on a buffer shorter than four bytes. -/
def get32 : List Byte → Option Nat
  | b0 :: b1 :: b2 :: b3 :: _ =>
    some (b0.toNat ||| (b1.toNat <<< 8) ||| (b2.toNat <<< 16) ||| (b3.toNat <<< 24))
  | _ => none

/-! ## The program -/

/-- The string `"WM_CLASS"`. -/
def wmClassName : GoString := [87, 77, 95, 67, 76, 65, 83, 83]

/-- The string `"_NET_CLIENT_LIST"`. -/
def netClientListName : GoString :=
  [95, 78, 69, 84, 95, 67, 76, 73, 69, 78, 84, 95, 76, 73, 83, 84]

/-- The function `windowClassFromId`: two requests, each of which ends the process
through `log.Fatal` when it fails, then the property value split on NUL without its
last piece. Returns the history afterwards and the result. -/
def windowClassFromId (X : XServer) (tr : Trace) (windowId : Window) :
    Trace × Except Status (List GoString) :=
  let aname := wmClassName
  let tr1 := tr ++ [Effect.internAtom true aname]
  match X.internAtom tr true aname with
  | .error err => (tr1 ++ [Effect.log (LogLine.fatal err)], .error Status.fatal)
  | .ok nameAtom =>
    let tr2 := tr1 ++ [Effect.getProperty windowId nameAtom]
    match X.getProperty tr1 windowId nameAtom with
    | .error err => (tr2 ++ [Effect.log (LogLine.fatal err)], .error Status.fatal)
    | .ok reply =>
      let classSplits := stringsSplit 0 reply.value
      (tr2, .ok classSplits.dropLast)

/-- The function `mapUnmappedWindows`: one checked map request per element of the
slice it is given, a log line for each; a failure goes on to the next element.
The slice is passed by value and only read. -/
def mapUnmappedWindows (X : XServer) : List Window → Trace → Trace
  | [], tr => tr
  | windowId :: rest, tr =>
    match X.mapWindowChecked tr windowId with
    | some _ =>
      mapUnmappedWindows X rest
        (tr ++ [Effect.mapWindow windowId, Effect.log (LogLine.couldNotMap windowId)])
    | none =>
      mapUnmappedWindows X rest
        (tr ++ [Effect.mapWindow windowId, Effect.log (LogLine.mapped windowId)])

/-- The loop of `getMappedWindows` from index `i`: `valueLen - i` more reads of
`Get32(reply.Value[i*4:])`. -/
def readWindows (value : List Byte) : Nat → Nat → Option (List Window)
  | 0, _ => some []
  | n + 1, i =>
    match get32 (value.drop (i * 4)) with
    | none => none
    | some w =>
      match readWindows value n (i + 1) with
      | none => none
      | some ws => some (w :: ws)

/-- The function `getMappedWindows`: the window ids in the `_NET_CLIENT_LIST`
property of the root window. -/
def getMappedWindows (X : XServer) (tr : Trace) (root : Window) :
    Trace × Except Status (List Window) :=
  let aname := netClientListName
  let tr1 := tr ++ [Effect.internAtom true aname]
  match X.internAtom tr true aname with
  | .error err => (tr1 ++ [Effect.log (LogLine.fatal err)], .error Status.fatal)
  | .ok nameAtom =>
    let tr2 := tr1 ++ [Effect.getProperty root nameAtom]
    match X.getProperty tr1 root nameAtom with
    | .error err => (tr2 ++ [Effect.log (LogLine.fatal err)], .error Status.fatal)
    | .ok reply =>
      match readWindows reply.value reply.valueLen 0 with
      | none => (tr2, .error Status.panicked)
      | some mappedWindows => (tr2, .ok mappedWindows)

/-- The loop `for _, windowClass := range windowClasses` of `main`, which occurs twice
(lines 72-82 with the words `(Previously spawned)` in its log lines, lines 103-113
without): every element equal to `wmNameToHide` sends one checked unmap request for
`windowId`; on success the id is appended to `unMappedWindows`, on failure the loop
continues with the next element. -/
def unmapMatching (X : XServer) (wmNameToHide : GoString) (previouslySpawned : Bool)
    (windowId : Window) (windowClasses : List GoString) : List GoString → State → State
  | [], s => s
  | windowClass :: rest, s =>
    if windowClass = wmNameToHide then
      match X.unmapWindowChecked s.trace windowId with
      | some _ =>
        unmapMatching X wmNameToHide previouslySpawned windowId windowClasses rest
          { s with trace := s.trace ++ [Effect.unmapWindow windowId,
              Effect.log (LogLine.couldNotUnmap windowClasses windowId previouslySpawned)] }
      | none =>
        unmapMatching X wmNameToHide previouslySpawned windowId windowClasses rest
          { s with
            unMappedWindows := s.unMappedWindows ++ [windowId]
            trace := s.trace ++ [Effect.unmapWindow windowId,
              Effect.log (LogLine.unmapped windowClasses windowId previouslySpawned)] }
    else
      unmapMatching X wmNameToHide previouslySpawned windowId windowClasses rest s

/-- The deferred calls of `main`, run in reverse order of their `defer` statements when
`main` returns or panics: `mapUnmappedWindows(X, deferredArg)`, where `deferredArg`
is the value `unMappedWindows` had when the `defer` statement on line 56 was executed
(Go evaluates the arguments of a deferred call at the `defer` statement), then
`X.Close()`. -/
def runDeferred (X : XServer) (deferredArg : List Window) (status : Status) (s : State) :
    State :=
  { s with
    status := status
    trace := mapUnmappedWindows X deferredArg s.trace ++ [Effect.close] }

/-- The body of the goroutine started on line 60, run when an interrupt arrives: the
closure reads the variable `unMappedWindows` itself, so it sees its current value. -/
def interruptHandler (X : XServer) (s : State) : State :=
  { s with
    status := Status.interrupted
    trace := mapUnmappedWindows X s.unMappedWindows s.trace ++ [Effect.close] }

/-- The body of the pre-scan loop (lines 71-82) for one enumerated window. -/
def prescanStep (X : XServer) (wmNameToHide : GoString) (windowId : Window) (s : State) :
    State :=
  match windowClassFromId X s.trace windowId with
  | (tr, .error status) => { s with status := status, trace := tr }
  | (tr, .ok windowClasses) =>
    unmapMatching X wmNameToHide true windowId windowClasses windowClasses
      { s with trace := tr }

/-- The pre-scan loop `for _, windowId := range mappedWindows` (lines 70-83); it goes
on to the next window as long as the process has not been ended. -/
def prescanLoop (X : XServer) (wmNameToHide : GoString) : List Window → State → State
  | [], s => s
  | windowId :: rest, s =>
    let s1 := prescanStep X wmNameToHide windowId s
    match s1.status with
    | Status.running => prescanLoop X wmNameToHide rest s1
    | _ => s1

/-- The pre-scan (lines 69-83). A panic in `getMappedWindows` unwinds `main`. -/
def prescan (X : XServer) (root : Window) (wmNameToHide : GoString)
    (deferredArg : List Window) (s : State) : State :=
  match getMappedWindows X s.trace root with
  | (tr, .error Status.panicked) =>
    runDeferred X deferredArg Status.panicked { s with trace := tr }
  | (tr, .error status) => { s with status := status, trace := tr }
  | (tr, .ok mappedWindows) => prescanLoop X wmNameToHide mappedWindows { s with trace := tr }

/-- Lines 93-95: `if xerr != nil { log.Printf("Error: %s", xerr) }`. -/
def logXerr (xerr : Option XError) (s : State) : State :=
  match xerr with
  | some e => { s with trace := s.trace ++ [Effect.log (LogLine.error e)] }
  | none => s

/-- One iteration of the loop `for` on lines 86-117, given what `WaitForEvent` returned. -/
def eventStep (X : XServer) (wmNameToHide : GoString) (deferredArg : List Window)
    (r : WaitResult) (s : State) : State :=
  match r.ev, r.xerr with
  | none, none =>
    runDeferred X deferredArg Status.returned
      { s with trace := s.trace ++ [Effect.log LogLine.bothNil] }
  | ev, xerr =>
    let s1 := logXerr xerr s
    match ev with
    | some (Event.mapRequest _) =>
      { s1 with trace := s1.trace ++ [Effect.log LogLine.mapRequest] }
    | some (Event.mapNotify windowId) =>
      match windowClassFromId X s1.trace windowId with
      | (tr, .error status) => { s1 with status := status, trace := tr }
      | (tr, .ok windowClasses) =>
        unmapMatching X wmNameToHide false windowId windowClasses windowClasses
          { s1 with trace := tr }
    | _ => s1

/-- The loop `for` on lines 86-117 over the results `WaitForEvent` delivers; when they
run out the process is blocked in `WaitForEvent`, still running. -/
def eventLoop (X : XServer) (wmNameToHide : GoString) (deferredArg : List Window) :
    List WaitResult → State → State
  | [], s => s
  | r :: rest, s =>
    let s1 := eventStep X wmNameToHide deferredArg r s
    match s1.status with
    | Status.running => eventLoop X wmNameToHide deferredArg rest s1
    | _ => s1

/-- The function `main` from line 53 on, with a connection established, the flag `-p`
in `toUnmapPreviouslySpawned` and the one positional argument in `wmNameToHide`. -/
def main (X : XServer) (root : Window) (toUnmapPreviouslySpawned : Bool)
    (wmNameToHide : GoString) (events : List WaitResult) : State :=
  let unMappedWindows : List Window := []
  let deferredArg := unMappedWindows
  let s0 : State :=
    { status := Status.running
      unMappedWindows := unMappedWindows
      trace := [Effect.changeWindowAttributes root] }
  let s1 := if toUnmapPreviouslySpawned then prescan X root wmNameToHide deferredArg s0 else s0
  match s1.status with
  | Status.running => eventLoop X wmNameToHide deferredArg events s1
  | _ => s1

/-! ## Observations on a history -/

/-- The windows of the unmap requests in a history, in order. -/
def unmapRequests (tr : Trace) : List Window :=
  tr.filterMap fun e => match e with
    | Effect.unmapWindow w => some w
    | _ => none

/-- The windows of the map requests in a history, in order. -/
def mapRequests (tr : Trace) : List Window :=
  tr.filterMap fun e => match e with
    | Effect.mapWindow w => some w
    | _ => none

/-- The windows whose map request failed, as logged, in order. -/
def failedMaps (tr : Trace) : List Window :=
  tr.filterMap fun e => match e with
    | Effect.log (LogLine.couldNotMap w) => some w
    | _ => none

/-- The raw value of a string-list property: each string followed by one NUL byte. -/
def writeClasses : List GoString → List Byte
  | [] => []
  | s :: rest => s ++ 0 :: writeClasses rest

/-- Whether the class-name query for a window fails after history `tr`: the atom
lookup returns an error, or it succeeds and the property read returns an error. -/
def classQueryFails (X : XServer) (tr : Trace) (windowId : Window) : Bool :=
  match X.internAtom tr true wmClassName with
  | .error _ => true
  | .ok nameAtom =>
    match X.getProperty (tr ++ [Effect.internAtom true wmClassName]) windowId nameAtom with
    | .error _ => true
    | .ok _ => false

/-- The windows of the unmap requests in the history `tr` that succeeded, in order,
when `tr` follows the history `before`: the request is answered by the server from
the history up to it. -/
def successfulUnmaps (X : XServer) : Trace → Trace → List Window
  | _, [] => []
  | before, e :: rest =>
    match e with
    | Effect.unmapWindow w =>
      match X.unmapWindowChecked before w with
      | none => w :: successfulUnmaps X (before ++ [e]) rest
      | some _ => successfulUnmaps X (before ++ [e]) rest
    | _ => successfulUnmaps X (before ++ [e]) rest

/-- The state `s1` continues the state `s`: its history is the history of `s` with
more effects after it, and its registry is the registry of `s` followed by the
windows of the unmap requests among those effects that succeeded. -/
def Continues (X : XServer) (s s1 : State) : Prop :=
  ∃ added, s1.trace = s.trace ++ added ∧
    s1.unMappedWindows = s.unMappedWindows ++ successfulUnmaps X s.trace added

/-- The windows the pre-scan enumerates in a run of `main`: none without the flag `-p`
or when `getMappedWindows` does not return. -/
def prescannedWindows (X : XServer) (root : Window) (toUnmapPreviouslySpawned : Bool) :
    List Window :=
  if toUnmapPreviouslySpawned then
    match (getMappedWindows X [Effect.changeWindowAttributes root] root).2 with
    | .ok mappedWindows => mappedWindows
    | .error _ => []
  else []

/-! ## Concrete servers for the examples -/

/-- The bytes of `"xterm"`. -/
def xterm : GoString := [120, 116, 101, 114, 109]

/-- The bytes of `"XTerm"`. -/
def xtermUpper : GoString := [88, 84, 101, 114, 109]

/-- The bytes of `"bash"`. -/
def bash : GoString := [98, 97, 115, 104]

/-- The four bytes of a 32-bit value, least significant first. -/
def put32 (w : Nat) : List Byte :=
  [UInt8.ofNat (w % 256), UInt8.ofNat (w / 256 % 256), UInt8.ofNat (w / 65536 % 256),
    UInt8.ofNat (w / 16777216 % 256)]

/-- The value of a `_NET_CLIENT_LIST` property listing the given windows. -/
def writeWindows : List Window → List Byte
  | [] => []
  | w :: rest => put32 w ++ writeWindows rest

/-- A server on which every request succeeds: atom 67 is `WM_CLASS`, atom 400 is
`_NET_CLIENT_LIST`, the root window lists `clients`, and `classes w` is the class
list of window `w`. -/
def serverWith (clients : List Window) (classes : Window → List GoString) : XServer where
  internAtom := fun _ _ name => .ok (if name = wmClassName then 67 else 400)
  getProperty := fun _ w a =>
    if a = 67 then
      .ok { valueLen := (writeClasses (classes w)).length, value := writeClasses (classes w) }
    else
      .ok { valueLen := clients.length, value := writeWindows clients }
  unmapWindowChecked := fun _ _ => none
  mapWindowChecked := fun _ _ => none

/-- The server `serverWith`, except that reading a property of window 30 fails. -/
def serverFailing30 (classes : Window → List GoString) : XServer where
  internAtom := (serverWith [] classes).internAtom
  getProperty := fun tr w a =>
    if w = 30 then .error "BadWindow" else (serverWith [] classes).getProperty tr w a
  unmapWindowChecked := fun _ _ => none
  mapWindowChecked := fun _ _ => none

/-- The server `serverWith`, except that every unmap request fails. -/
def serverNoUnmap (classes : Window → List GoString) : XServer where
  internAtom := (serverWith [] classes).internAtom
  getProperty := (serverWith [] classes).getProperty
  unmapWindowChecked := fun _ _ => some "BadWindow"
  mapWindowChecked := fun _ _ => none

/-- The server `serverWith`, except that the first unmap request for a window fails and
the later ones succeed. -/
def serverUnmapSecondTry (classes : Window → List GoString) : XServer where
  internAtom := (serverWith [] classes).internAtom
  getProperty := (serverWith [] classes).getProperty
  unmapWindowChecked := fun tr w =>
    if Effect.unmapWindow w ∈ tr then none else some "BadWindow"
  mapWindowChecked := fun _ _ => none

/-- The server `serverWith`, except that the map request for window 10 fails. -/
def serverNoMap10 (classes : Window → List GoString) : XServer where
  internAtom := (serverWith [] classes).internAtom
  getProperty := (serverWith [] classes).getProperty
  unmapWindowChecked := fun _ _ => none
  mapWindowChecked := fun _ w => if w = 10 then some "BadWindow" else none

/-- The windows of Scenario A and B: 10 is an xterm, 11 a shell, 20 an xterm. -/
def scenarioClasses (w : Window) : List GoString :=
  if w = 10 then [xterm, xtermUpper] else if w = 11 then [bash] else [xterm]

/-- A window whose instance name and class name are both `xterm`. -/
def sameNameClasses (_w : Window) : List GoString := [xterm, xterm]

/-- A map-notify event for `w`, delivered without an error. -/
def mapNotifyOf (w : Window) : WaitResult := ⟨some (Event.mapNotify w), none⟩

/-- The end of the event stream: neither an event nor an error. -/
def streamEnd : WaitResult := ⟨none, none⟩

/-- A running process with the given registry and an empty history. -/
def runningWith (registry : List Window) : State :=
  { status := Status.running, unMappedWindows := registry, trace := [] }

/-! ## Lemmas on histories -/

theorem unmapRequests_append (a b : Trace) :
    unmapRequests (a ++ b) = unmapRequests a ++ unmapRequests b := by
  simp [unmapRequests, List.filterMap_append]

theorem mapRequests_append (a b : Trace) :
    mapRequests (a ++ b) = mapRequests a ++ mapRequests b := by
  simp [mapRequests, List.filterMap_append]

/-! ## The class resolver -/

theorem stringsSplit_append_sep (sep : Byte) (s : GoString) (rest : List Byte)
    (h : sep ∉ s) : stringsSplit sep (s ++ sep :: rest) = s :: stringsSplit sep rest := by
  induction s with
  | nil => simp [stringsSplit]
  | cons c cs ih =>
    have hc : c ≠ sep := fun e => h (by simp [e])
    have hcs : sep ∉ cs := fun m => h (List.mem_cons_of_mem _ m)
    simp [stringsSplit, hc, ih hcs]

theorem stringsSplit_writeClasses (l : List GoString) (h : ∀ s ∈ l, (0 : Byte) ∉ s) :
    stringsSplit 0 (writeClasses l) = l ++ [[]] := by
  induction l with
  | nil => simp [writeClasses, stringsSplit]
  | cons s rest ih =>
    have hs : (0 : Byte) ∉ s := h s (by simp)
    have hrest : ∀ t ∈ rest, (0 : Byte) ∉ t := fun t m => h t (List.mem_cons_of_mem _ m)
    simp [writeClasses, stringsSplit_append_sep 0 s _ hs, ih hrest]

theorem windowClassFromId_unmapRequests (X : XServer) (tr : Trace) (w : Window) :
    unmapRequests (windowClassFromId X tr w).1 = unmapRequests tr := by
  unfold windowClassFromId
  simp only []
  split
  · simp [unmapRequests]
  · split <;> simp [unmapRequests]

theorem windowClassFromId_mapRequests (X : XServer) (tr : Trace) (w : Window) :
    mapRequests (windowClassFromId X tr w).1 = mapRequests tr := by
  unfold windowClassFromId
  simp only []
  split
  · simp [mapRequests]
  · split <;> simp [mapRequests]

/-! ## The restore pass -/

theorem mapUnmappedWindows_mapRequests (X : XServer) (ws : List Window) (tr : Trace) :
    mapRequests (mapUnmappedWindows X ws tr) = mapRequests tr ++ ws := by
  induction ws generalizing tr with
  | nil => simp [mapUnmappedWindows]
  | cons w rest ih =>
    unfold mapUnmappedWindows
    split <;> rw [ih, mapRequests_append] <;> simp [mapRequests]

theorem failedMaps_append (a b : Trace) :
    failedMaps (a ++ b) = failedMaps a ++ failedMaps b := by
  simp [failedMaps, List.filterMap_append]

theorem mapUnmappedWindows_failedMaps (X : XServer) (ws : List Window) (tr : Trace) :
    List.Sublist (failedMaps (mapUnmappedWindows X ws tr)) (failedMaps tr ++ ws) := by
  induction ws generalizing tr with
  | nil => simp [mapUnmappedWindows]
  | cons w rest ih =>
    unfold mapUnmappedWindows
    split
    · have h := ih (tr ++ [Effect.mapWindow w, Effect.log (LogLine.couldNotMap w)])
      rw [failedMaps_append] at h
      simpa [failedMaps] using h
    · have h := ih (tr ++ [Effect.mapWindow w, Effect.log (LogLine.mapped w)])
      rw [failedMaps_append] at h
      have h2 : List.Sublist (failedMaps tr ++ rest) (failedMaps tr ++ w :: rest) :=
        List.Sublist.append (List.Sublist.refl _) (List.sublist_cons_self w rest)
      exact List.Sublist.trans (by simpa [failedMaps] using h) h2

/-! ## The hide policy -/

theorem unmapMatching_unmapRequests (X : XServer) (t : GoString) (p : Bool) (w : Window)
    (wcs cs : List GoString) (s : State) :
    unmapRequests (unmapMatching X t p w wcs cs s).trace
      = unmapRequests s.trace ++ List.replicate (cs.count t) w := by
  induction cs generalizing s with
  | nil => simp [unmapMatching]
  | cons c rest ih =>
    unfold unmapMatching
    split
    · rename_i h
      subst h
      split <;> rw [ih] <;>
        simp [unmapRequests_append, unmapRequests, List.replicate_succ]
    · rename_i h
      rw [ih, List.count_cons_of_ne (Ne.symm h)]

theorem unmapMatching_registry_ok (X : XServer) (t : GoString) (p : Bool) (w : Window)
    (wcs cs : List GoString) (s : State) (hok : ∀ tr, X.unmapWindowChecked tr w = none) :
    (unmapMatching X t p w wcs cs s).unMappedWindows
      = s.unMappedWindows ++ List.replicate (cs.count t) w := by
  induction cs generalizing s with
  | nil => simp [unmapMatching]
  | cons c rest ih =>
    unfold unmapMatching
    split
    · rename_i h
      subst h
      rw [hok]
      simp only []
      rw [ih]
      simp [List.replicate_succ]
    · rename_i h
      rw [ih, List.count_cons_of_ne (Ne.symm h)]

theorem unmapMatching_registry_fail (X : XServer) (t : GoString) (p : Bool) (w : Window)
    (wcs cs : List GoString) (s : State) (hfail : ∀ tr, X.unmapWindowChecked tr w ≠ none) :
    (unmapMatching X t p w wcs cs s).unMappedWindows = s.unMappedWindows := by
  induction cs generalizing s with
  | nil => simp [unmapMatching]
  | cons c rest ih =>
    unfold unmapMatching
    split
    · split
      · rw [ih]
      · rename_i h
        exact absurd h (hfail _)
    · rw [ih]

theorem unmapMatching_registry_le (X : XServer) (t : GoString) (p : Bool) (w : Window)
    (wcs cs : List GoString) (s : State) :
    ∃ k, k ≤ cs.count t ∧
      (unmapMatching X t p w wcs cs s).unMappedWindows
        = s.unMappedWindows ++ List.replicate k w := by
  induction cs generalizing s with
  | nil => exact ⟨0, by simp [unmapMatching]⟩
  | cons c rest ih =>
    unfold unmapMatching
    split
    · rename_i h
      subst h
      split
      · obtain ⟨k, hk, e⟩ := ih { s with trace := s.trace ++ [Effect.unmapWindow w,
            Effect.log (LogLine.couldNotUnmap wcs w p)] }
        exact ⟨k, by simp; omega, e⟩
      · obtain ⟨k, hk, e⟩ := ih { s with
            unMappedWindows := s.unMappedWindows ++ [w]
            trace := s.trace ++ [Effect.unmapWindow w,
              Effect.log (LogLine.unmapped wcs w p)] }
        exact ⟨k + 1, by simp; omega, by rw [e]; simp [List.replicate_succ]⟩
    · rename_i h
      obtain ⟨k, hk, e⟩ := ih s
      exact ⟨k, by rw [List.count_cons_of_ne (Ne.symm h)]; exact hk, e⟩

/-! ## One iteration of the event loop on a map-notify event -/

theorem eventStep_mapNotify (X : XServer) (t : GoString) (d : List Window) (w : Window)
    (xerr : Option XError) (s : State) :
    eventStep X t d ⟨some (Event.mapNotify w), xerr⟩ s
      = match windowClassFromId X (logXerr xerr s).trace w with
        | (tr, .error status) => { logXerr xerr s with status := status, trace := tr }
        | (tr, .ok windowClasses) =>
          unmapMatching X t false w windowClasses windowClasses
            { logXerr xerr s with trace := tr } := by
  cases xerr <;> rfl

theorem logXerr_unMappedWindows (xerr : Option XError) (s : State) :
    (logXerr xerr s).unMappedWindows = s.unMappedWindows := by
  cases xerr <;> rfl

theorem logXerr_unmapRequests (xerr : Option XError) (s : State) :
    unmapRequests (logXerr xerr s).trace = unmapRequests s.trace := by
  cases xerr <;> simp [logXerr, unmapRequests_append, unmapRequests]

theorem logXerr_mapRequests (xerr : Option XError) (s : State) :
    mapRequests (logXerr xerr s).trace = mapRequests s.trace := by
  cases xerr <;> simp [logXerr, mapRequests_append, mapRequests]

theorem windowClassFromId_of_fails (X : XServer) (tr : Trace) (w : Window)
    (h : classQueryFails X tr w = true) :
    (windowClassFromId X tr w).2 = .error Status.fatal ∧
      unmapRequests (windowClassFromId X tr w).1 = unmapRequests tr ∧
      mapRequests (windowClassFromId X tr w).1 = mapRequests tr := by
  refine ⟨?_, windowClassFromId_unmapRequests X tr w, windowClassFromId_mapRequests X tr w⟩
  unfold classQueryFails at h
  unfold windowClassFromId
  simp only []
  split
  · rfl
  · rename_i a ha
    rw [ha] at h
    simp only [] at h
    split
    · rfl
    · rename_i reply hr
      rw [hr] at h
      simp at h

theorem eventStep_mapNotify_ok (X : XServer) (t : GoString) (d : List Window) (w : Window)
    (xerr : Option XError) (s : State) (classes : List GoString)
    (hres : (windowClassFromId X (logXerr xerr s).trace w).2 = .ok classes) :
    eventStep X t d ⟨some (Event.mapNotify w), xerr⟩ s
      = unmapMatching X t false w classes classes
          { logXerr xerr s with trace := (windowClassFromId X (logXerr xerr s).trace w).1 } := by
  rw [eventStep_mapNotify]
  rcases hq : windowClassFromId X (logXerr xerr s).trace w with ⟨tr, res⟩
  rw [hq] at hres
  simp only [] at hres
  subst hres
  rfl

theorem eventStep_mapNotify_error (X : XServer) (t : GoString) (d : List Window) (w : Window)
    (xerr : Option XError) (s : State) (status : Status)
    (hres : (windowClassFromId X (logXerr xerr s).trace w).2 = .error status) :
    eventStep X t d ⟨some (Event.mapNotify w), xerr⟩ s
      = { logXerr xerr s with
          status := status
          trace := (windowClassFromId X (logXerr xerr s).trace w).1 } := by
  rw [eventStep_mapNotify]
  rcases hq : windowClassFromId X (logXerr xerr s).trace w with ⟨tr, res⟩
  rw [hq] at hres
  simp only [] at hres
  subst hres
  rfl

theorem prescanStep_ok (X : XServer) (t : GoString) (w : Window) (s : State)
    (classes : List GoString) (hres : (windowClassFromId X s.trace w).2 = .ok classes) :
    prescanStep X t w s
      = unmapMatching X t true w classes classes
          { s with trace := (windowClassFromId X s.trace w).1 } := by
  unfold prescanStep
  rcases hq : windowClassFromId X s.trace w with ⟨tr, res⟩
  rw [hq] at hres
  simp only [] at hres
  subst hres
  rfl

theorem prescanStep_error (X : XServer) (t : GoString) (w : Window) (s : State)
    (status : Status) (hres : (windowClassFromId X s.trace w).2 = .error status) :
    prescanStep X t w s
      = { s with status := status, trace := (windowClassFromId X s.trace w).1 } := by
  unfold prescanStep
  rcases hq : windowClassFromId X s.trace w with ⟨tr, res⟩
  rw [hq] at hres
  simp only [] at hres
  subst hres
  rfl

/-! ## The registry along a run -/

theorem successfulUnmaps_append (X : XServer) (before a b : Trace) :
    successfulUnmaps X before (a ++ b)
      = successfulUnmaps X before a ++ successfulUnmaps X (before ++ a) b := by
  induction a generalizing before with
  | nil => simp [successfulUnmaps]
  | cons e rest ih =>
    have hassoc : before ++ e :: rest = before ++ [e] ++ rest := by simp
    rw [List.cons_append, hassoc]
    cases e with
    | unmapWindow w =>
      rcases h : X.unmapWindowChecked before w with _ | err <;>
        simp [successfulUnmaps, h, ih]
    | changeWindowAttributes w0 => simp [successfulUnmaps, ih]
    | internAtom b0 n => simp [successfulUnmaps, ih]
    | getProperty w0 a0 => simp [successfulUnmaps, ih]
    | mapWindow w0 => simp [successfulUnmaps, ih]
    | close => simp [successfulUnmaps, ih]
    | log l => simp [successfulUnmaps, ih]

theorem successfulUnmaps_of_no_unmap (X : XServer) (before a : Trace)
    (h : unmapRequests a = []) : successfulUnmaps X before a = [] := by
  induction a generalizing before with
  | nil => simp [successfulUnmaps]
  | cons e rest ih =>
    cases e with
    | unmapWindow w => simp [unmapRequests] at h
    | changeWindowAttributes w0 =>
      exact ih _ (by simpa [unmapRequests] using h)
    | internAtom b n => exact ih _ (by simpa [unmapRequests] using h)
    | getProperty w0 a0 => exact ih _ (by simpa [unmapRequests] using h)
    | mapWindow w0 => exact ih _ (by simpa [unmapRequests] using h)
    | close => exact ih _ (by simpa [unmapRequests] using h)
    | log l => exact ih _ (by simpa [unmapRequests] using h)

theorem successfulUnmaps_sublist (X : XServer) (before a : Trace) :
    List.Sublist (successfulUnmaps X before a) (unmapRequests a) := by
  induction a generalizing before with
  | nil => simp [successfulUnmaps, unmapRequests]
  | cons e rest ih =>
    cases e with
    | unmapWindow w =>
      have hu : unmapRequests (Effect.unmapWindow w :: rest) = w :: unmapRequests rest := by
        simp [unmapRequests]
      rw [hu]
      unfold successfulUnmaps
      simp only []
      split
      · exact List.Sublist.cons₂ w (ih _)
      · exact List.Sublist.cons w (ih _)
    | changeWindowAttributes w0 => simpa [unmapRequests, successfulUnmaps] using ih _
    | internAtom b n => simpa [unmapRequests, successfulUnmaps] using ih _
    | getProperty w0 a0 => simpa [unmapRequests, successfulUnmaps] using ih _
    | mapWindow w0 => simpa [unmapRequests, successfulUnmaps] using ih _
    | close => simpa [unmapRequests, successfulUnmaps] using ih _
    | log l => simpa [unmapRequests, successfulUnmaps] using ih _

theorem Continues.refl (X : XServer) (s : State) : Continues X s s :=
  ⟨[], by simp, by simp [successfulUnmaps]⟩

theorem Continues.trans {X : XServer} {s s1 s2 : State} (h1 : Continues X s s1)
    (h2 : Continues X s1 s2) : Continues X s s2 := by
  obtain ⟨a, ha, hra⟩ := h1
  obtain ⟨b, hb, hrb⟩ := h2
  refine ⟨a ++ b, ?_, ?_⟩
  · rw [hb, ha, List.append_assoc]
  · rw [hrb, hra, ha, successfulUnmaps_append, List.append_assoc]

theorem continues_of_quiet (X : XServer) (s s1 : State) (added : Trace)
    (hreg : s1.unMappedWindows = s.unMappedWindows) (htr : s1.trace = s.trace ++ added)
    (hq : unmapRequests added = []) : Continues X s s1 :=
  ⟨added, htr, by rw [hreg, successfulUnmaps_of_no_unmap X _ _ hq]; simp⟩

theorem windowClassFromId_extends (X : XServer) (tr : Trace) (w : Window) :
    ∃ added, (windowClassFromId X tr w).1 = tr ++ added ∧ unmapRequests added = [] := by
  unfold windowClassFromId
  simp only []
  split
  · rename_i err _
    exact ⟨[Effect.internAtom true wmClassName, Effect.log (LogLine.fatal err)],
      by simp, by simp [unmapRequests]⟩
  · rename_i nameAtom _
    split
    · rename_i err _
      exact ⟨[Effect.internAtom true wmClassName, Effect.getProperty w nameAtom,
        Effect.log (LogLine.fatal err)], by simp, by simp [unmapRequests]⟩
    · exact ⟨[Effect.internAtom true wmClassName, Effect.getProperty w nameAtom],
        by simp, by simp [unmapRequests]⟩

theorem mapUnmappedWindows_extends (X : XServer) (ws : List Window) (tr : Trace) :
    ∃ added, mapUnmappedWindows X ws tr = tr ++ added ∧ unmapRequests added = [] := by
  induction ws generalizing tr with
  | nil => exact ⟨[], by simp [mapUnmappedWindows], by simp [unmapRequests]⟩
  | cons w rest ih =>
    unfold mapUnmappedWindows
    split
    · obtain ⟨a, ha, hq⟩ := ih (tr ++ [Effect.mapWindow w, Effect.log (LogLine.couldNotMap w)])
      exact ⟨[Effect.mapWindow w, Effect.log (LogLine.couldNotMap w)] ++ a,
        by rw [ha]; simp, by rw [unmapRequests_append, hq]; simp [unmapRequests]⟩
    · obtain ⟨a, ha, hq⟩ := ih (tr ++ [Effect.mapWindow w, Effect.log (LogLine.mapped w)])
      exact ⟨[Effect.mapWindow w, Effect.log (LogLine.mapped w)] ++ a,
        by rw [ha]; simp, by rw [unmapRequests_append, hq]; simp [unmapRequests]⟩

theorem logXerr_continues (X : XServer) (xerr : Option XError) (s : State) :
    Continues X s (logXerr xerr s) := by
  cases xerr with
  | none => exact Continues.refl X s
  | some e =>
    exact continues_of_quiet X s _ [Effect.log (LogLine.error e)] rfl rfl
      (by simp [unmapRequests])

theorem runDeferred_continues (X : XServer) (d : List Window) (status : Status) (s : State) :
    Continues X s (runDeferred X d status s) := by
  obtain ⟨a, ha, hq⟩ := mapUnmappedWindows_extends X d s.trace
  refine continues_of_quiet X s _ (a ++ [Effect.close]) rfl ?_ ?_
  · show mapUnmappedWindows X d s.trace ++ [Effect.close] = s.trace ++ (a ++ [Effect.close])
    rw [ha, List.append_assoc]
  · rw [unmapRequests_append, hq]
    simp [unmapRequests]

theorem withClassQuery_continues (X : XServer) (s : State) (w : Window) (status : Status) :
    Continues X s { s with status := status, trace := (windowClassFromId X s.trace w).1 } := by
  obtain ⟨a, ha, hq⟩ := windowClassFromId_extends X s.trace w
  exact continues_of_quiet X s _ a rfl ha hq

theorem unmapMatching_continues (X : XServer) (t : GoString) (p : Bool) (w : Window)
    (wcs cs : List GoString) (s : State) :
    Continues X s (unmapMatching X t p w wcs cs s) := by
  induction cs generalizing s with
  | nil => exact Continues.refl X s
  | cons c rest ih =>
    unfold unmapMatching
    split
    · split
      · rename_i e he
        refine Continues.trans ?_ (ih _)
        refine ⟨[Effect.unmapWindow w, Effect.log (LogLine.couldNotUnmap wcs w p)], rfl, ?_⟩
        simp [successfulUnmaps, he]
      · rename_i he
        refine Continues.trans ?_ (ih _)
        refine ⟨[Effect.unmapWindow w, Effect.log (LogLine.unmapped wcs w p)], rfl, ?_⟩
        simp [successfulUnmaps, he]
    · exact ih s

theorem prescanStep_continues (X : XServer) (t : GoString) (w : Window) (s : State) :
    Continues X s (prescanStep X t w s) := by
  rcases hq : (windowClassFromId X s.trace w).2 with st | classes
  · rw [prescanStep_error X t w s st hq]
    exact withClassQuery_continues X s w st
  · rw [prescanStep_ok X t w s classes hq]
    exact Continues.trans (withClassQuery_continues X s w s.status)
      (unmapMatching_continues X t true w classes classes _)

theorem eventStep_mapNotify_continues (X : XServer) (t : GoString) (d : List Window)
    (w : Window) (xerr : Option XError) (s : State) :
    Continues X s (eventStep X t d ⟨some (Event.mapNotify w), xerr⟩ s) := by
  refine Continues.trans (logXerr_continues X xerr s) ?_
  rcases hq : (windowClassFromId X (logXerr xerr s).trace w).2 with st | classes
  · rw [eventStep_mapNotify_error X t d w xerr s st hq]
    exact withClassQuery_continues X (logXerr xerr s) w st
  · rw [eventStep_mapNotify_ok X t d w xerr s classes hq]
    exact Continues.trans (withClassQuery_continues X (logXerr xerr s) w (logXerr xerr s).status)
      (unmapMatching_continues X t false w classes classes _)

theorem eventStep_continues (X : XServer) (t : GoString) (d : List Window)
    (r : WaitResult) (s : State) : Continues X s (eventStep X t d r s) := by
  obtain ⟨ev, xerr⟩ := r
  rcases ev with _ | ev
  · cases xerr with
    | none =>
      refine Continues.trans ?_ (runDeferred_continues X d Status.returned
        { s with trace := s.trace ++ [Effect.log LogLine.bothNil] })
      exact continues_of_quiet X s _ [Effect.log LogLine.bothNil] rfl rfl
        (by simp [unmapRequests])
    | some e => exact logXerr_continues X (some e) s
  · cases ev with
    | mapNotify w => exact eventStep_mapNotify_continues X t d w xerr s
    | other => exact logXerr_continues X xerr s
    | mapRequest w0 =>
      refine Continues.trans (logXerr_continues X xerr s) ?_
      exact continues_of_quiet X _ _ [Effect.log LogLine.mapRequest] rfl rfl
        (by simp [unmapRequests])

theorem eventLoop_continues (X : XServer) (t : GoString) (d : List Window)
    (events : List WaitResult) (s : State) : Continues X s (eventLoop X t d events s) := by
  induction events generalizing s with
  | nil => exact Continues.refl X s
  | cons r rest ih =>
    unfold eventLoop
    simp only []
    split
    · exact Continues.trans (eventStep_continues X t d r s) (ih _)
    · exact eventStep_continues X t d r s

theorem prescanLoop_continues (X : XServer) (t : GoString) (ws : List Window) (s : State) :
    Continues X s (prescanLoop X t ws s) := by
  induction ws generalizing s with
  | nil => exact Continues.refl X s
  | cons w rest ih =>
    unfold prescanLoop
    simp only []
    split
    · exact Continues.trans (prescanStep_continues X t w s) (ih _)
    · exact prescanStep_continues X t w s

theorem getMappedWindows_extends (X : XServer) (tr : Trace) (root : Window) :
    ∃ added, (getMappedWindows X tr root).1 = tr ++ added ∧ unmapRequests added = [] := by
  unfold getMappedWindows
  simp only []
  split
  · rename_i err _
    exact ⟨[Effect.internAtom true netClientListName, Effect.log (LogLine.fatal err)],
      by simp, by simp [unmapRequests]⟩
  · rename_i nameAtom _
    split
    · rename_i err _
      exact ⟨[Effect.internAtom true netClientListName, Effect.getProperty root nameAtom,
        Effect.log (LogLine.fatal err)], by simp, by simp [unmapRequests]⟩
    · split <;>
        exact ⟨[Effect.internAtom true netClientListName, Effect.getProperty root nameAtom],
          by simp, by simp [unmapRequests]⟩

theorem prescan_continues (X : XServer) (root : Window) (t : GoString) (d : List Window)
    (s : State) : Continues X s (prescan X root t d s) := by
  obtain ⟨a, ha, hq⟩ := getMappedWindows_extends X s.trace root
  have hbase : ∀ status, Continues X s
      { s with status := status, trace := (getMappedWindows X s.trace root).1 } :=
    fun status => continues_of_quiet X s _ a rfl ha hq
  unfold prescan
  rcases hg : getMappedWindows X s.trace root with ⟨tr, res⟩
  rw [hg] at hbase
  rcases res with st | ws
  · cases st
    case panicked =>
      exact Continues.trans (hbase s.status) (runDeferred_continues X d Status.panicked _)
    all_goals exact hbase _
  · exact Continues.trans (hbase s.status) (prescanLoop_continues X t ws _)

theorem main_continues (X : XServer) (root : Window) (p : Bool) (t : GoString)
    (events : List WaitResult) :
    Continues X
      { status := Status.running, unMappedWindows := []
        trace := [Effect.changeWindowAttributes root] }
      (main X root p t events) := by
  have h1 : Continues X
      { status := Status.running, unMappedWindows := []
        trace := [Effect.changeWindowAttributes root] }
      (if p then prescan X root t []
          { status := Status.running, unMappedWindows := []
            trace := [Effect.changeWindowAttributes root] }
        else { status := Status.running, unMappedWindows := []
               trace := [Effect.changeWindowAttributes root] }) := by
    cases p
    · exact Continues.refl X _
    · exact prescan_continues X root t [] _
  unfold main
  simp only []
  split
  · exact Continues.trans h1 (eventLoop_continues X t [] events _)
  · exact h1

theorem main_registry_exact (X : XServer) (root : Window) (p : Bool) (t : GoString)
    (events : List WaitResult) :
    (main X root p t events).unMappedWindows
      = successfulUnmaps X [] (main X root p t events).trace := by
  obtain ⟨a, ha, hr⟩ := main_continues X root p t events
  rw [hr, ha, successfulUnmaps_append]
  simp [successfulUnmaps]

/-! ## The claims -/

/-- C1, as the code has it: when the class query for the window `w` of a map-notify
event resolves to a sequence that contains the target class and unmap requests for
`w` succeed, the step issues one unmap request for `w` per occurrence of the target
class in the sequence and appends `w` to the registry once per occurrence; there is at
least one occurrence, and when there is exactly one the step issues exactly one unmap
request and the registry is the old one with `w` appended once at the end. -/
theorem mapNotify_hides_once_per_occurrence (X : XServer) (t : GoString) (d : List Window)
    (w : Window) (xerr : Option XError) (s : State) (classes : List GoString)
    (hres : (windowClassFromId X (logXerr xerr s).trace w).2 = .ok classes)
    (hmem : t ∈ classes)
    (hok : ∀ tr, X.unmapWindowChecked tr w = none) :
    unmapRequests (eventStep X t d ⟨some (Event.mapNotify w), xerr⟩ s).trace
        = unmapRequests s.trace ++ List.replicate (classes.count t) w ∧
      (eventStep X t d ⟨some (Event.mapNotify w), xerr⟩ s).unMappedWindows
        = s.unMappedWindows ++ List.replicate (classes.count t) w ∧
      1 ≤ classes.count t ∧
      (classes.count t = 1 →
        unmapRequests (eventStep X t d ⟨some (Event.mapNotify w), xerr⟩ s).trace
            = unmapRequests s.trace ++ [w] ∧
          (eventStep X t d ⟨some (Event.mapNotify w), xerr⟩ s).unMappedWindows
            = s.unMappedWindows ++ [w]) := by
  have hu : unmapRequests (eventStep X t d ⟨some (Event.mapNotify w), xerr⟩ s).trace
      = unmapRequests s.trace ++ List.replicate (classes.count t) w := by
    rw [eventStep_mapNotify_ok X t d w xerr s classes hres, unmapMatching_unmapRequests]
    simp only []
    rw [windowClassFromId_unmapRequests, logXerr_unmapRequests]
  have hr : (eventStep X t d ⟨some (Event.mapNotify w), xerr⟩ s).unMappedWindows
      = s.unMappedWindows ++ List.replicate (classes.count t) w := by
    rw [eventStep_mapNotify_ok X t d w xerr s classes hres,
      unmapMatching_registry_ok X t false w classes classes _ hok]
    simp only []
    rw [logXerr_unMappedWindows]
  refine ⟨hu, hr, List.count_pos_iff.mpr hmem, fun h1 => ?_⟩
  rw [hu, hr, h1]
  simp

/-- C1, witness: Scenario B, registry `[10]` and window 20 with classes `["xterm"]`. -/
theorem mapNotify_hides_once_per_occurrence_witness :
    unmapRequests (eventStep (serverWith [] scenarioClasses) xterm [] (mapNotifyOf 20)
        (runningWith [10])).trace = [20] ∧
      (eventStep (serverWith [] scenarioClasses) xterm [] (mapNotifyOf 20)
        (runningWith [10])).unMappedWindows = [10, 20] := by
  have h := mapNotify_hides_once_per_occurrence (serverWith [] scenarioClasses) xterm []
    20 none (runningWith [10]) [xterm] rfl (by decide) (fun _ => rfl)
  exact ⟨(h.2.2.2 (by decide)).1, (h.2.2.2 (by decide)).2⟩

/-- C1, counterexample: for a window 20 whose class sequence is `["xterm", "xterm"]`,
not yet in the registry `[10]`, with every unmap request succeeding, the step issues
two unmap requests and leaves the registry `[10, 20, 20]`. -/
theorem mapNotify_same_name_hides_twice :
    20 ∉ (runningWith [10]).unMappedWindows ∧
      (windowClassFromId (serverWith [] sameNameClasses) (runningWith [10]).trace 20).2
        = .ok [xterm, xterm] ∧
      xterm ∈ [xterm, xterm] ∧
      (∀ tr w, (serverWith [] sameNameClasses).unmapWindowChecked tr w = none) ∧
      unmapRequests (eventStep (serverWith [] sameNameClasses) xterm [] (mapNotifyOf 20)
        (runningWith [10])).trace = [20, 20] ∧
      (eventStep (serverWith [] sameNameClasses) xterm [] (mapNotifyOf 20)
        (runningWith [10])).unMappedWindows = [10, 20, 20] ∧
      (eventStep (serverWith [] sameNameClasses) xterm [] (mapNotifyOf 20)
        (runningWith [10])).unMappedWindows ≠ [10, 20] := by
  refine ⟨by decide, rfl, by decide, fun _ _ => rfl, by decide, by decide, by decide⟩

/-- C3: for every server (every pattern of successes and failures), every registry
and every history, `mapUnmappedWindows` issues exactly the map requests for the
entries of the registry, one each, in insertion order, whatever fails; so does the
interrupt handler on the registry of the moment. Registry `[10, 20]` gives the map
requests 10 then 20 even when the request for 10 fails; an empty registry gives none. -/
theorem restore_maps_every_entry_in_order (X : XServer) (registry : List Window)
    (tr : Trace) (s : State) :
    mapRequests (mapUnmappedWindows X registry tr) = mapRequests tr ++ registry ∧
      mapRequests (interruptHandler X s).trace = mapRequests s.trace ++ s.unMappedWindows ∧
      mapRequests (mapUnmappedWindows (serverNoMap10 scenarioClasses) [10, 20] [])
        = [10, 20] ∧
      mapRequests (mapUnmappedWindows X [] []) = [] := by
  refine ⟨mapUnmappedWindows_mapRequests X registry tr, ?_, by decide, by
    simp [mapUnmappedWindows, mapRequests]⟩
  unfold interruptHandler
  simp only []
  rw [mapRequests_append, mapUnmappedWindows_mapRequests]
  simp [mapRequests]

/-- C4, as the code has it: a restore pass leaves the registry as it was, whether the
map requests succeed or fail: no entry is removed, neither by the interrupt handler
nor by the deferred call that runs when `main` returns. Every window whose map
request failed in the pass is an entry of the registry afterwards, and so is every
window whose map request succeeded. -/
theorem restore_keeps_registry (X : XServer) (s : State) (deferredArg : List Window)
    (status : Status) :
    (interruptHandler X s).unMappedWindows = s.unMappedWindows ∧
      (runDeferred X deferredArg status s).unMappedWindows = s.unMappedWindows ∧
      List.Sublist (failedMaps (interruptHandler X s).trace)
        (failedMaps s.trace ++ (interruptHandler X s).unMappedWindows) ∧
      mapRequests (interruptHandler X s).trace
        = mapRequests s.trace ++ (interruptHandler X s).unMappedWindows := by
  refine ⟨rfl, rfl, ?_, ?_⟩
  · show List.Sublist
      (failedMaps (mapUnmappedWindows X s.unMappedWindows s.trace ++ [Effect.close]))
      (failedMaps s.trace ++ s.unMappedWindows)
    rw [failedMaps_append]
    simpa [failedMaps] using mapUnmappedWindows_failedMaps X s.unMappedWindows s.trace
  · show mapRequests (mapUnmappedWindows X s.unMappedWindows s.trace ++ [Effect.close])
      = mapRequests s.trace ++ s.unMappedWindows
    rw [mapRequests_append, mapUnmappedWindows_mapRequests]
    simp [mapRequests]

/-- C4, counterexample: with registry `[10]` and a server on which every map request
succeeds, no map request fails in the restore pass, yet the registry is still `[10]`
afterwards, not empty. -/
theorem restore_all_ok_registry_not_empty :
    (∀ tr w, (serverWith [] scenarioClasses).mapWindowChecked tr w = none) ∧
      failedMaps (interruptHandler (serverWith [] scenarioClasses) (runningWith [10])).trace
        = [] ∧
      (interruptHandler (serverWith [] scenarioClasses) (runningWith [10])).unMappedWindows
        = [10] ∧
      (interruptHandler (serverWith [] scenarioClasses) (runningWith [10])).unMappedWindows
        ≠ [] := by
  refine ⟨fun _ _ => rfl, by decide, by decide, by decide⟩

/-- C6: when the class query for a window resolves to a sequence that does not contain
the target class, processing its map-notify event issues no unmap request and leaves
the registry unchanged, and so does the pre-scan step for that window. -/
theorem no_match_untouched (X : XServer) (t : GoString) (d : List Window) (w : Window)
    (xerr : Option XError) (s : State) :
    (∀ classes, (windowClassFromId X (logXerr xerr s).trace w).2 = .ok classes →
      t ∉ classes →
      unmapRequests (eventStep X t d ⟨some (Event.mapNotify w), xerr⟩ s).trace
          = unmapRequests s.trace ∧
        (eventStep X t d ⟨some (Event.mapNotify w), xerr⟩ s).unMappedWindows
          = s.unMappedWindows) ∧
    (∀ classes, (windowClassFromId X s.trace w).2 = .ok classes →
      t ∉ classes →
      unmapRequests (prescanStep X t w s).trace = unmapRequests s.trace ∧
        (prescanStep X t w s).unMappedWindows = s.unMappedWindows) := by
  constructor
  · intro classes hres hnot
    have hc : classes.count t = 0 := List.count_eq_zero.mpr hnot
    have hle := unmapMatching_registry_le X t false w classes classes
      { logXerr xerr s with trace := (windowClassFromId X (logXerr xerr s).trace w).1 }
    obtain ⟨k, hk, e⟩ := hle
    have hk0 : k = 0 := by omega
    subst hk0
    rw [eventStep_mapNotify_ok X t d w xerr s classes hres, unmapMatching_unmapRequests, e,
      hc]
    simp only []
    rw [windowClassFromId_unmapRequests, logXerr_unmapRequests, logXerr_unMappedWindows]
    simp
  · intro classes hres hnot
    have hc : classes.count t = 0 := List.count_eq_zero.mpr hnot
    have hle := unmapMatching_registry_le X t true w classes classes
      { s with trace := (windowClassFromId X s.trace w).1 }
    obtain ⟨k, hk, e⟩ := hle
    have hk0 : k = 0 := by omega
    subst hk0
    rw [prescanStep_ok X t w s classes hres, unmapMatching_unmapRequests, e, hc]
    simp only []
    rw [windowClassFromId_unmapRequests]
    simp

/-- C6, witness: with target `xterm`, window 11 with classes `["bash"]` is untouched,
by a map-notify event and by the pre-scan. -/
theorem no_match_untouched_witness :
    (unmapRequests (eventStep (serverWith [] scenarioClasses) xterm [] (mapNotifyOf 11)
        (runningWith [10])).trace = [] ∧
      (eventStep (serverWith [] scenarioClasses) xterm [] (mapNotifyOf 11)
        (runningWith [10])).unMappedWindows = [10]) ∧
    (unmapRequests (prescanStep (serverWith [] scenarioClasses) xterm 11
        (runningWith [10])).trace = [] ∧
      (prescanStep (serverWith [] scenarioClasses) xterm 11
        (runningWith [10])).unMappedWindows = [10]) :=
  ⟨(no_match_untouched (serverWith [] scenarioClasses) xterm [] 11 none
      (runningWith [10])).1 [bash] rfl (by decide),
    (no_match_untouched (serverWith [] scenarioClasses) xterm [] 11 none
      (runningWith [10])).2 [bash] rfl (by decide)⟩

/-- C8: when both requests of the class resolver succeed and the property value is the
strings of `l`, none of which contains a NUL byte, each followed by one NUL byte, the
resolver returns exactly `l`. -/
theorem resolver_roundtrip (X : XServer) (tr : Trace) (w : Window) (nameAtom : Atom)
    (reply : GetPropertyReply) (l : List GoString)
    (hatom : X.internAtom tr true wmClassName = .ok nameAtom)
    (hprop : X.getProperty (tr ++ [Effect.internAtom true wmClassName]) w nameAtom
      = .ok reply)
    (hval : reply.value = writeClasses l)
    (hnul : ∀ s ∈ l, (0 : Byte) ∉ s) :
    (windowClassFromId X tr w).2 = .ok l := by
  unfold windowClassFromId
  simp only [hatom, hprop, hval, stringsSplit_writeClasses l hnul]
  simp

/-- C8, witness: the bytes `xterm\0XTerm\0` give `["xterm", "XTerm"]`. -/
theorem resolver_roundtrip_witness :
    writeClasses [xterm, xtermUpper]
        = [120, 116, 101, 114, 109, 0, 88, 84, 101, 114, 109, 0] ∧
      (windowClassFromId (serverWith [] scenarioClasses) [] 10).2 = .ok [xterm, xtermUpper] :=
  ⟨by decide,
    resolver_roundtrip (serverWith [] scenarioClasses) [] 10 67
      { valueLen := 12, value := writeClasses [xterm, xtermUpper] } [xterm, xtermUpper]
      rfl rfl rfl (by decide)⟩

/-- C9: a failed unmap attempt adds nothing to the registry. Processing a map-notify
event for a window, and the pre-scan step for it, extend the history by some effects
and the registry by exactly the windows of those unmap requests among them that
succeeded, in order, one entry per successful request and none for a failed one.
So when every unmap request issued in the step fails, the registry after the step
equals the registry before it; this is the case in particular when the server fails
every unmap request for that window. -/
theorem failed_unmap_adds_nothing (X : XServer) (t : GoString) (d : List Window)
    (w : Window) (xerr : Option XError) (s : State) :
    (∃ added,
      (eventStep X t d ⟨some (Event.mapNotify w), xerr⟩ s).trace = s.trace ++ added ∧
        (eventStep X t d ⟨some (Event.mapNotify w), xerr⟩ s).unMappedWindows
          = s.unMappedWindows ++ successfulUnmaps X s.trace added) ∧
    (∃ added,
      (prescanStep X t w s).trace = s.trace ++ added ∧
        (prescanStep X t w s).unMappedWindows
          = s.unMappedWindows ++ successfulUnmaps X s.trace added) ∧
    (∀ added,
      (eventStep X t d ⟨some (Event.mapNotify w), xerr⟩ s).trace = s.trace ++ added →
      successfulUnmaps X s.trace added = [] →
      (eventStep X t d ⟨some (Event.mapNotify w), xerr⟩ s).unMappedWindows
        = s.unMappedWindows) ∧
    (∀ added,
      (prescanStep X t w s).trace = s.trace ++ added →
      successfulUnmaps X s.trace added = [] →
      (prescanStep X t w s).unMappedWindows = s.unMappedWindows) ∧
    ((∀ tr, X.unmapWindowChecked tr w ≠ none) →
      (eventStep X t d ⟨some (Event.mapNotify w), xerr⟩ s).unMappedWindows
          = s.unMappedWindows ∧
        (prescanStep X t w s).unMappedWindows = s.unMappedWindows) := by
  refine ⟨eventStep_mapNotify_continues X t d w xerr s, prescanStep_continues X t w s,
    ?_, ?_, ?_⟩
  · intro added htr hnone
    obtain ⟨a, ha, hr⟩ := eventStep_mapNotify_continues X t d w xerr s
    have e : a = added := List.append_cancel_left (ha.symm.trans htr)
    subst e
    rw [hr, hnone, List.append_nil]
  · intro added htr hnone
    obtain ⟨a, ha, hr⟩ := prescanStep_continues X t w s
    have e : a = added := List.append_cancel_left (ha.symm.trans htr)
    subst e
    rw [hr, hnone, List.append_nil]
  · intro hfail
    constructor
    · rcases hq : (windowClassFromId X (logXerr xerr s).trace w).2 with st | classes
      · rw [eventStep_mapNotify_error X t d w xerr s st hq]
        exact logXerr_unMappedWindows xerr s
      · rw [eventStep_mapNotify_ok X t d w xerr s classes hq,
          unmapMatching_registry_fail X t false w classes classes _ hfail]
        exact logXerr_unMappedWindows xerr s
    · rcases hq : (windowClassFromId X s.trace w).2 with st | classes
      · rw [prescanStep_error X t w s st hq]
      · rw [prescanStep_ok X t w s classes hq,
          unmapMatching_registry_fail X t true w classes classes _ hfail]

/-- C9, witness: window 20 has the classes `["xterm", "xterm"]`; its first unmap
request fails and its second succeeds, and the registry `[10]` becomes `[10, 20]`,
one entry for the one success. When every unmap request fails, window 20 with classes
`["xterm"]` leaves the registry `[10]` as it was, although the request was issued. -/
theorem failed_unmap_adds_nothing_witness :
    unmapRequests (eventStep (serverUnmapSecondTry sameNameClasses) xterm []
        (mapNotifyOf 20) (runningWith [10])).trace = [20, 20] ∧
      successfulUnmaps (serverUnmapSecondTry sameNameClasses) []
        (eventStep (serverUnmapSecondTry sameNameClasses) xterm []
          (mapNotifyOf 20) (runningWith [10])).trace = [20] ∧
      (eventStep (serverUnmapSecondTry sameNameClasses) xterm []
        (mapNotifyOf 20) (runningWith [10])).unMappedWindows = [10, 20] ∧
      (∃ added,
        (eventStep (serverUnmapSecondTry sameNameClasses) xterm []
            (mapNotifyOf 20) (runningWith [10])).trace = (runningWith [10]).trace ++ added ∧
          (eventStep (serverUnmapSecondTry sameNameClasses) xterm []
            (mapNotifyOf 20) (runningWith [10])).unMappedWindows
            = [10] ++ successfulUnmaps (serverUnmapSecondTry sameNameClasses)
                (runningWith [10]).trace added) ∧
      unmapRequests (eventStep (serverNoUnmap scenarioClasses) xterm [] (mapNotifyOf 20)
        (runningWith [10])).trace = [20] ∧
      (eventStep (serverNoUnmap scenarioClasses) xterm [] (mapNotifyOf 20)
        (runningWith [10])).unMappedWindows = [10] ∧
      (prescanStep (serverNoUnmap scenarioClasses) xterm 20
        (runningWith [10])).unMappedWindows = [10] :=
  ⟨by decide, by decide, by decide,
    (failed_unmap_adds_nothing (serverUnmapSecondTry sameNameClasses) xterm [] 20 none
      (runningWith [10])).1,
    by decide,
    (failed_unmap_adds_nothing (serverNoUnmap scenarioClasses) xterm [] 20 none
      (runningWith [10])).2.2.2.2 (fun _ => Option.some_ne_none _)⟩

/-- C2, the code at the failing input: a map-notify event for the xterm window 20
followed by the end of the event stream. The loop stops and `main` returns with 20 in
the registry, but the restore pass that runs on this path issues no map request at
all: the deferred call holds the registry as it was at the `defer` statement, which
is empty. On any state the step for the end of the stream returns from `main` without
a map request and the loop does not go on; the interrupt handler, on the same
registry, does map window 20. -/
theorem stream_end_restores_nothing :
    (∀ (X : XServer) (t : GoString) (s : State),
      (eventStep X t [] streamEnd s).status = Status.returned ∧
        (eventStep X t [] streamEnd s).unMappedWindows = s.unMappedWindows ∧
        mapRequests (eventStep X t [] streamEnd s).trace = mapRequests s.trace ∧
        ∀ rest, eventLoop X t [] (streamEnd :: rest) s = eventStep X t [] streamEnd s) ∧
      (main (serverWith [] scenarioClasses) 1 false xterm
        [mapNotifyOf 20, streamEnd]).status = Status.returned ∧
      (main (serverWith [] scenarioClasses) 1 false xterm
        [mapNotifyOf 20, streamEnd]).unMappedWindows = [20] ∧
      mapRequests (main (serverWith [] scenarioClasses) 1 false xterm
        [mapNotifyOf 20, streamEnd]).trace = [] ∧
      mapRequests (interruptHandler (serverWith [] scenarioClasses)
        (main (serverWith [] scenarioClasses) 1 false xterm [mapNotifyOf 20])).trace
        = [20] := by
  refine ⟨fun X t s => ⟨rfl, rfl, ?_, fun rest => rfl⟩, by decide, by decide, by decide,
    by decide⟩
  show mapRequests (mapUnmappedWindows X [] (s.trace ++ [Effect.log LogLine.bothNil])
    ++ [Effect.close]) = mapRequests s.trace
  simp [mapUnmappedWindows, mapRequests]

/-- C5, as the code has it: when the class query for the window of a map-notify event
fails, the step issues no unmap request and no map request, leaves the registry
unchanged and ends the process through `log.Fatal`: the status is `fatal` and the
events that follow are not processed. The same holds for a pre-scanned window and the
windows enumerated after it. -/
theorem failed_class_query_is_fatal (X : XServer) (t : GoString) (d : List Window)
    (w : Window) (xerr : Option XError) (s : State) :
    (classQueryFails X (logXerr xerr s).trace w = true →
      unmapRequests (eventStep X t d ⟨some (Event.mapNotify w), xerr⟩ s).trace
          = unmapRequests s.trace ∧
        mapRequests (eventStep X t d ⟨some (Event.mapNotify w), xerr⟩ s).trace
          = mapRequests s.trace ∧
        (eventStep X t d ⟨some (Event.mapNotify w), xerr⟩ s).unMappedWindows
          = s.unMappedWindows ∧
        (eventStep X t d ⟨some (Event.mapNotify w), xerr⟩ s).status = Status.fatal ∧
        ∀ rest, eventLoop X t d (⟨some (Event.mapNotify w), xerr⟩ :: rest) s
          = eventStep X t d ⟨some (Event.mapNotify w), xerr⟩ s) ∧
    (classQueryFails X s.trace w = true →
      unmapRequests (prescanStep X t w s).trace = unmapRequests s.trace ∧
        mapRequests (prescanStep X t w s).trace = mapRequests s.trace ∧
        (prescanStep X t w s).unMappedWindows = s.unMappedWindows ∧
        (prescanStep X t w s).status = Status.fatal ∧
        ∀ rest, prescanLoop X t (w :: rest) s = prescanStep X t w s) := by
  constructor
  · intro hfail
    obtain ⟨hres, hu, hm⟩ := windowClassFromId_of_fails X _ w hfail
    have hst : (eventStep X t d ⟨some (Event.mapNotify w), xerr⟩ s).status = Status.fatal := by
      rw [eventStep_mapNotify_error X t d w xerr s Status.fatal hres]
    refine ⟨?_, ?_, ?_, hst, ?_⟩
    · rw [eventStep_mapNotify_error X t d w xerr s Status.fatal hres]
      simp only []
      rw [hu, logXerr_unmapRequests]
    · rw [eventStep_mapNotify_error X t d w xerr s Status.fatal hres]
      simp only []
      rw [hm, logXerr_mapRequests]
    · rw [eventStep_mapNotify_error X t d w xerr s Status.fatal hres]
      exact logXerr_unMappedWindows xerr s
    · intro rest
      show (match (eventStep X t d ⟨some (Event.mapNotify w), xerr⟩ s).status with
        | Status.running =>
          eventLoop X t d rest (eventStep X t d ⟨some (Event.mapNotify w), xerr⟩ s)
        | _ => eventStep X t d ⟨some (Event.mapNotify w), xerr⟩ s) = _
      rw [hst]
  · intro hfail
    obtain ⟨hres, hu, hm⟩ := windowClassFromId_of_fails X _ w hfail
    have hst : (prescanStep X t w s).status = Status.fatal := by
      rw [prescanStep_error X t w s Status.fatal hres]
    refine ⟨?_, ?_, ?_, hst, ?_⟩
    · rw [prescanStep_error X t w s Status.fatal hres]
      exact hu
    · rw [prescanStep_error X t w s Status.fatal hres]
      exact hm
    · rw [prescanStep_error X t w s Status.fatal hres]
    · intro rest
      show (match (prescanStep X t w s).status with
        | Status.running => prescanLoop X t rest (prescanStep X t w s)
        | _ => prescanStep X t w s) = _
      rw [hst]

/-- C5, witness: reading the class of window 30 fails; the step ends the process and
the map-notify event for the xterm window 20 that follows is not processed. -/
theorem failed_class_query_is_fatal_witness :
    classQueryFails (serverFailing30 scenarioClasses) (runningWith []).trace 30 = true ∧
      (eventStep (serverFailing30 scenarioClasses) xterm [] (mapNotifyOf 30)
        (runningWith [])).status = Status.fatal ∧
      eventLoop (serverFailing30 scenarioClasses) xterm [] [mapNotifyOf 30, mapNotifyOf 20]
          (runningWith [])
        = eventStep (serverFailing30 scenarioClasses) xterm [] (mapNotifyOf 30)
          (runningWith []) :=
  ⟨by decide,
    ((failed_class_query_is_fatal (serverFailing30 scenarioClasses) xterm [] 30 none
      (runningWith [])).1 (by decide)).2.2.2.1,
    ((failed_class_query_is_fatal (serverFailing30 scenarioClasses) xterm [] 30 none
      (runningWith [])).1 (by decide)).2.2.2.2 [mapNotifyOf 20]⟩

/-- C5, counterexample: the property read for window 30 fails; the process does not
stay running, and the xterm window 20 reported by the next event is never unmapped
nor registered, although it is when the event for window 30 does not come first. -/
theorem failed_class_query_stops_the_process :
    classQueryFails (serverFailing30 scenarioClasses) (runningWith []).trace 30 = true ∧
      (eventStep (serverFailing30 scenarioClasses) xterm [] (mapNotifyOf 30)
        (runningWith [])).status ≠ Status.running ∧
      (main (serverFailing30 scenarioClasses) 1 false xterm
        [mapNotifyOf 30, mapNotifyOf 20]).status = Status.fatal ∧
      unmapRequests (main (serverFailing30 scenarioClasses) 1 false xterm
        [mapNotifyOf 30, mapNotifyOf 20]).trace = [] ∧
      (main (serverFailing30 scenarioClasses) 1 false xterm
        [mapNotifyOf 30, mapNotifyOf 20]).unMappedWindows = [] ∧
      (main (serverFailing30 scenarioClasses) 1 false xterm
        [mapNotifyOf 20]).unMappedWindows = [20] := by
  refine ⟨by decide, by decide, by decide, by decide, by decide, by decide⟩

/-- C7, as the code has it: in every state reached by `main` from the empty registry,
by the pre-scan followed by any sequence of events, the registry is exactly the
sequence of the windows of the unmap requests that succeeded so far, in order. Each
window id occurs in it once per successful unmap request for that window, so the
registry is free of duplicates exactly when no window has had two successful unmap
requests; and every entry comes from an unmap request that was issued. -/
theorem registry_is_successful_unmaps (X : XServer) (root : Window) (p : Bool)
    (t : GoString) (events : List WaitResult) :
    (main X root p t events).unMappedWindows
        = successfulUnmaps X [] (main X root p t events).trace ∧
      (∀ w, (main X root p t events).unMappedWindows.count w
        = (successfulUnmaps X [] (main X root p t events).trace).count w) ∧
      ((main X root p t events).unMappedWindows.Nodup
        ↔ (successfulUnmaps X [] (main X root p t events).trace).Nodup) ∧
      List.Sublist (main X root p t events).unMappedWindows
        (unmapRequests (main X root p t events).trace) := by
  have h := main_registry_exact X root p t events
  refine ⟨h, fun w => by rw [← h], by rw [← h], ?_⟩
  rw [h]
  exact successfulUnmaps_sublist X [] _

/-- C7, witness: Scenario A followed by Scenario B, a pre-scan of windows 10 and 11 and
a map-notify event for window 20, gives the registry `[10, 20]`, the windows of the
two unmap requests, both successful. -/
theorem registry_is_successful_unmaps_witness :
    (main (serverWith [10, 11] scenarioClasses) 1 true xterm
        [mapNotifyOf 20]).unMappedWindows = [10, 20] ∧
      (main (serverWith [10, 11] scenarioClasses) 1 true xterm
          [mapNotifyOf 20]).unMappedWindows
        = successfulUnmaps (serverWith [10, 11] scenarioClasses) []
            (main (serverWith [10, 11] scenarioClasses) 1 true xterm [mapNotifyOf 20]).trace ∧
      (main (serverWith [10, 11] scenarioClasses) 1 true xterm
        [mapNotifyOf 20]).unMappedWindows.Nodup :=
  ⟨by decide,
    (registry_is_successful_unmaps (serverWith [10, 11] scenarioClasses) 1 true xterm
      [mapNotifyOf 20]).1,
    by decide⟩

/-- C7, counterexample: two map-notify events for the xterm window 20 put it in the
registry twice, and so does a pre-scan enumeration that lists window 10 twice. -/
theorem registry_holds_duplicates :
    (main (serverWith [] scenarioClasses) 1 false xterm
        [mapNotifyOf 20, mapNotifyOf 20]).unMappedWindows = [20, 20] ∧
      ¬ (main (serverWith [] scenarioClasses) 1 false xterm
        [mapNotifyOf 20, mapNotifyOf 20]).unMappedWindows.Nodup ∧
      prescannedWindows (serverWith [10, 10] scenarioClasses) 1 true = [10, 10] ∧
      (main (serverWith [10, 10] scenarioClasses) 1 true xterm []).unMappedWindows
        = [10, 10] ∧
      ¬ (main (serverWith [10, 10] scenarioClasses) 1 true xterm []).unMappedWindows.Nodup := by
  refine ⟨by decide, by decide, by decide, by decide, by decide⟩

end Sphidewin
